import Mathlib

/-!
Shallow embedding of `skills/gemini-image-gen/scripts/generate.py`.

The script is single-threaded and sequential; its observable effects are
modelled explicitly: file writes as an ordered list of (path, payload)
pairs, directory creations as an ordered list of events, generated-text
printing as a list of strings, and the process exit code as a `Nat`.
`os.getenv` is modelled as a function `String → Option String`, the two
candidate `.env` files as a `FileView` each (absent, unreadable, or a list
of lines), and each call of `datetime.now().strftime('%Y%m%d-%H%M%S')`
as reading the next element of a clock stream `Nat → String` indexed by
the number of calls made so far.
-/

namespace Goclaw

/-- Binary image payloads (`part.inline_data.data`) are byte lists. -/
abbrev Bytes := List Nat

/-- The double-quote character. -/
def dquote : Char := Char.ofNat 34

/-- The single-quote character. -/
def squote : Char := Char.ofNat 39

/-- Drop characters satisfying `p` from both ends of a character list
(the semantics of Python `str.strip`). -/
def stripWhileData (p : Char → Bool) (l : List Char) : List Char :=
  ((l.dropWhile p).reverse.dropWhile p).reverse

/-- Python `s.strip(c)` for a single character `c`: remove every leading
and trailing occurrence of `c`. -/
def stripChar (c : Char) (s : String) : String :=
  ⟨stripWhileData (· == c) s.data⟩

/-- Python whitespace characters recognised by `str.strip()` (ASCII). -/
def isPySpace (c : Char) : Bool :=
  c == ' ' || c == '\t' || c == '\n' || c == '\r' || c == '\x0b' || c == '\x0c'

/-- Python `s.strip()` with no argument: strip surrounding whitespace. -/
def pyStrip (s : String) : String :=
  ⟨stripWhileData isPySpace s.data⟩

/-- Python `s.startswith(pre)`. -/
def pyStarts (pre s : String) : Bool :=
  pre.data.isPrefixOf s.data

/-- Everything after the first `=` of a character list
(Python `line.split('=', 1)[1]` when `=` is present; `[]` otherwise). -/
def dropThroughEq : List Char → List Char
  | [] => []
  | c :: cs => if c == '=' then cs else dropThroughEq cs

/-- Everything after the first `=` of a string. -/
def afterFirstEq (s : String) : String :=
  ⟨dropThroughEq s.data⟩

/-- Python truthiness of an optional string: `None` and the empty string
are falsy (`if api_key:` in the source). -/
def pyTruthy : Option String → Option String
  | none => none
  | some s => if s == "" then none else some s

/-- `line.startswith(('GOOGLE_API_KEY=', 'GEMINI_API_KEY='))`
(generate.py line 91). -/
def isKeyLine (line : String) : Bool :=
  pyStarts "GOOGLE_API_KEY=" line || pyStarts "GEMINI_API_KEY=" line

/-- `key = line.split('=', 1)[1].strip(); key = key.strip('"').strip("'")`
(generate.py lines 93-94), applied to an already-stripped line. -/
def extractValue (line : String) : String :=
  stripChar squote (stripChar dquote (pyStrip (afterFirstEq line)))

/-- The `for line in f` loop of `load_env_file` (generate.py lines 89-95):
strip each line; on the first line starting with a recognised
`NAME=`, return the extracted value if non-empty and `None` otherwise
(`return key if key else None` exits the loop either way). -/
def scanLines : List String → Option String
  | [] => none
  | l :: ls =>
    let line := pyStrip l
    if isKeyLine line then
      let key := extractValue line
      if key == "" then none else some key
    else scanLines ls

/-- A candidate `.env` file as the filesystem presents it: absent,
present but unreadable (opening or reading raises), or readable content. -/
inductive FileView where
  | absent
  | unreadable
  | content (lines : List String)
deriving DecidableEq

/-- `path.exists()` (generate.py lines 59 and 68). -/
def FileView.exists : FileView → Bool
  | .absent => false
  | .unreadable => true
  | .content _ => true

/-- `load_env_file` (generate.py lines 77-99): returns the scanned key for
readable content; any raised error is caught, a warning is printed and
`None` is returned. The second component records whether the
`except` branch printed its warning. -/
def load_env_file : FileView → Option String × Bool
  | .content lines => (scanLines lines, false)
  | .absent => (none, true)
  | .unreadable => (none, true)

/-- The two candidate `.env` locations: the skill directory file and the
project-root file. -/
structure FS where
  skillEnv : FileView
  projectEnv : FileView

/-- Result of the credential search: the key (or `none`) plus the list of
file-read warnings printed along the way. -/
structure KeySearch where
  result : Option String
  warnings : List String
deriving DecidableEq

/-- `find_api_key` (generate.py lines 33-74): `GOOGLE_API_KEY` env var,
then `GEMINI_API_KEY` env var, then the skill-directory `.env` (only if
it exists), then the project-root `.env` (only if it exists); each value
is accepted only when truthy; `None` when everything fails. -/
def find_api_key (env : String → Option String) (fs : FS) : KeySearch :=
  match pyTruthy (env "GOOGLE_API_KEY") with
  | some k => ⟨some k, []⟩
  | none =>
  match pyTruthy (env "GEMINI_API_KEY") with
  | some k => ⟨some k, []⟩
  | none =>
  let skill := if fs.skillEnv.exists then load_env_file fs.skillEnv else (none, false)
  let ws1 : List String := if skill.2 then ["skill .env"] else []
  match pyTruthy skill.1 with
  | some k => ⟨some k, ws1⟩
  | none =>
  let proj := if fs.projectEnv.exists then load_env_file fs.projectEnv else (none, false)
  let ws2 := ws1 ++ if proj.2 then ["project .env"] else []
  match pyTruthy proj.1 with
  | some k => ⟨some k, ws2⟩
  | none => ⟨none, ws2⟩

/-- What one file location contributes to the search: nothing when the
file does not exist, otherwise the truthy-filtered `load_env_file` result. -/
def fileLookup (v : FileView) : Option String :=
  if v.exists then pyTruthy (load_env_file v).1 else none

/-- The four credential sources in precedence order. -/
def keySources (env : String → Option String) (fs : FS) : List (Option String) :=
  [ pyTruthy (env "GOOGLE_API_KEY")
  , pyTruthy (env "GEMINI_API_KEY")
  , fileLookup fs.skillEnv
  , fileLookup fs.projectEnv ]

/-- First `some` of an ordered list of optional values. -/
def firstSome : List (Option String) → Option String
  | [] => none
  | none :: rest => firstSome rest
  | some k :: _ => some k

/-- One response part: the `inline_data` payload when present and truthy,
and the `text` attribute (`none` models absent or `None`). -/
structure Part where
  inline_data : Option Bytes
  text : Option String
deriving DecidableEq

/-- `candidate.content`. -/
structure Content where
  parts : List Part
deriving DecidableEq

/-- One candidate of the service response. -/
structure Candidate where
  content : Content
deriving DecidableEq

/-- The service response. -/
structure Response where
  candidates : List Candidate
deriving DecidableEq

/-- A directory-creation event: `assets_dir.mkdir(parents=True, exist_ok=True)`
or `save_path.parent.mkdir(parents=True, exist_ok=True)`. -/
inductive DirEvent where
  | assets
  | parentOf (path : String)
deriving DecidableEq

/-- State threaded through the `for i, part in enumerate(...)` loop
(generate.py lines 155-175): the image counter, the number of
`datetime.now()` calls made so far, and the accumulated effects. -/
structure LoopState where
  image_count : Nat
  clockCalls : Nat
  writes : List (String × Bytes)
  mkdirs : List DirEvent
deriving DecidableEq

/-- `'./docs/assets'` (generate.py line 166). -/
def assetsDir : String := "./docs/assets"

/-- `assets_dir / f'gemini-\x7btimestamp\x7d-\x7bi\x7d.png'` (generate.py line 168). -/
def defaultSave (timestamp : String) (i : Nat) : String :=
  assetsDir ++ "/gemini-" ++ timestamp ++ "-" ++ toString i ++ ".png"

/-- One iteration of the part loop (generate.py lines 156-175): a part
without truthy `inline_data` is skipped; otherwise the counter is
incremented, the destination is the explicit output path verbatim or the
freshly-timestamped default name at the enumerate index, directories are
created, and the payload is written. -/
def processPart (output_path : Option String) (clock : Nat → String)
    (st : LoopState) (ip : Nat × Part) : LoopState :=
  match ip.2.inline_data with
  | none => st
  | some data =>
    match output_path with
    | some p =>
      { image_count := st.image_count + 1
        clockCalls := st.clockCalls
        writes := st.writes ++ [(p, data)]
        mkdirs := st.mkdirs ++ [DirEvent.parentOf p] }
    | none =>
      let timestamp := clock st.clockCalls
      let save := defaultSave timestamp ip.1
      { image_count := st.image_count + 1
        clockCalls := st.clockCalls + 1
        writes := st.writes ++ [(save, data)]
        mkdirs := st.mkdirs ++ [DirEvent.assets, DirEvent.parentOf save] }

/-- Observable effects of one `generate_image` call. -/
structure ExecEffects where
  success : Bool
  writes : List (String × Bytes)
  mkdirs : List DirEvent
  printedText : List String
deriving DecidableEq

/-- `generate_image` (generate.py lines 102-194) on an already-received
response: fail with no effects on zero candidates; otherwise run the part
loop over the first candidate, collect truthy text parts and print them
only under `include_text`, and succeed exactly when the image counter is
non-zero. `prompt`, `api_key` and `model` only feed the request and
progress prints, which carry no modelled effect. -/
def generate_image (prompt : String) (api_key : String) (include_text : Bool)
    (output_path : Option String) (model : String)
    (clock : Nat → String) (response : Response) : ExecEffects :=
  match response.candidates with
  | [] => ⟨false, [], [], []⟩
  | candidate :: _ =>
    let st := (candidate.content.parts.enum).foldl (processPart output_path clock) ⟨0, 0, [], []⟩
    let text_parts := candidate.content.parts.filterMap (fun p => pyTruthy p.text)
    let printed := if include_text then text_parts else []
    ⟨!(st.image_count == 0), st.writes, st.mkdirs, printed⟩

/-- Parsed command-line arguments. -/
structure Args where
  prompt : String
  include_text : Bool
  output : Option String
  model : String

/-- The four credential sources named by the remediation guidance printed
when no key is found (generate.py lines 241-244). -/
def remediationSources : List String :=
  [ "Environment variable GOOGLE_API_KEY"
  , "Environment variable GEMINI_API_KEY"
  , "Skill directory .env"
  , "Project root .env" ]

/-- Observable outcome of `main`. -/
structure MainEffects where
  exitCode : Nat
  requestAttempted : Bool
  guidance : List String
deriving DecidableEq

/-- `main` (generate.py lines 197-257): resolve the key; when missing,
print the remediation guidance and exit 1 without invoking the executor;
otherwise run `generate_image` and exit 0 on success, 1 on failure. -/
def main (env : String → Option String) (fs : FS) (args : Args)
    (clock : Nat → String) (response : Response) : MainEffects :=
  match (find_api_key env fs).result with
  | none => ⟨1, false, remediationSources⟩
  | some key =>
    let e := generate_image args.prompt key args.include_text args.output args.model clock response
    ⟨if e.success then 0 else 1, true, []⟩

/-- Number of truthy image parts of the first candidate (the final value
of the image counter). -/
def imageData (resp : Response) : List Bytes :=
  match resp.candidates with
  | [] => []
  | c :: _ => c.content.parts.filterMap Part.inline_data

/-- The truthy text parts of the first candidate. -/
def textData (resp : Response) : List String :=
  match resp.candidates with
  | [] => []
  | c :: _ => c.content.parts.filterMap (fun p => pyTruthy p.text)

/-- Modelled from the spec (claim C2 wording): strip exactly a single
layer of enclosing single- or double-quotes; used only to compare the
spec wording with the source behaviour. -/
def stripOneLayer (s : String) : String :=
  if 2 ≤ s.data.length && s.data.head? == some dquote && s.data.getLast? == some dquote then
    ⟨(s.data.drop 1).dropLast⟩
  else if 2 ≤ s.data.length && s.data.head? == some squote && s.data.getLast? == some squote then
    ⟨(s.data.drop 1).dropLast⟩
  else s

/-- Content of the last write targeting `path`. -/
def lastContent (writes : List (String × Bytes)) (path : String) : Option Bytes :=
  ((writes.filter (fun w => w.1 == path)).map Prod.snd).getLast?

end Goclaw

namespace Goclaw

/-- The credential search result equals the first hit of the four sources
in precedence order. -/
theorem find_api_key_firstSome (env : String → Option String) (fs : FS) :
    (find_api_key env fs).result = firstSome (keySources env fs) := by
  unfold find_api_key keySources
  cases h1 : pyTruthy (env "GOOGLE_API_KEY") with
  | some k => simp [firstSome]
  | none =>
    cases h2 : pyTruthy (env "GEMINI_API_KEY") with
    | some k => simp [firstSome]
    | none =>
      simp only [firstSome]
      have hskill : pyTruthy (if fs.skillEnv.exists then load_env_file fs.skillEnv
          else (none, false)).1 = fileLookup fs.skillEnv := by
        cases hv : fs.skillEnv <;> simp [fileLookup, FileView.exists, load_env_file, pyTruthy]
      have hproj : pyTruthy (if fs.projectEnv.exists then load_env_file fs.projectEnv
          else (none, false)).1 = fileLookup fs.projectEnv := by
        cases hv : fs.projectEnv <;> simp [fileLookup, FileView.exists, load_env_file, pyTruthy]
      rw [hskill, hproj]
      cases h3 : fileLookup fs.skillEnv with
      | some k => simp [firstSome]
      | none =>
        cases h4 : fileLookup fs.projectEnv with
        | some k => simp [firstSome]
        | none => simp [firstSome]

end Goclaw

namespace Goclaw

/-- Skill file stage treats a non-scanning view as a non-match. -/
theorem fileLookup_absent : fileLookup FileView.absent = none := rfl

/-- Unreadable files contribute no key. -/
theorem fileLookup_unreadable : fileLookup FileView.unreadable = none := rfl

/-- Truthiness of the absent value. -/
theorem pyTruthy_none : pyTruthy none = none := rfl

/-- C1: the credential resolver returns the first non-empty credential in
the fixed order GOOGLE_API_KEY env, GEMINI_API_KEY env, skill `.env`,
project `.env`; later sources are not consulted after a hit; when both
environment variables are non-empty the GOOGLE_API_KEY value is returned;
when every source fails the result is the `none` value, not an exception
(the resolver is a total function). -/
theorem find_api_key_resolves_in_order (env : String → Option String) (fs : FS) :
    (find_api_key env fs).result = firstSome (keySources env fs)
    ∧ (∀ g, env "GOOGLE_API_KEY" = some g → g ≠ "" →
        (find_api_key env fs).result = some g)
    ∧ (firstSome (keySources env fs) = none → (find_api_key env fs).result = none) := by
  refine ⟨find_api_key_firstSome env fs, ?_, ?_⟩
  · intro g hg hne
    unfold find_api_key
    rw [hg]
    simp [pyTruthy, hne]
  · intro h
    rw [find_api_key_firstSome env fs, h]

/-- Witness: with both environment variables set, the primary one wins. -/
theorem find_api_key_resolves_in_order_witness :
    (find_api_key
      (fun n => if n == "GOOGLE_API_KEY" then some "primary-key"
                else if n == "GEMINI_API_KEY" then some "alternate-key" else none)
      ⟨FileView.absent, FileView.absent⟩).result = some "primary-key" :=
  (find_api_key_resolves_in_order
      (fun n => if n == "GOOGLE_API_KEY" then some "primary-key"
                else if n == "GEMINI_API_KEY" then some "alternate-key" else none)
      ⟨FileView.absent, FileView.absent⟩).2.1 "primary-key" rfl (by decide)

/-- C3: a missing or unreadable credential file is a non-match; with the
environment variables empty and the skill file missing or unreadable the
search result is whatever the project file yields (the next source); the
skill-file warning is printed exactly in the unreadable case, and an
unreadable project file also only warns and yields `none`. The model is a
total function, so no exception reaches the caller. -/
theorem file_error_non_fatal (env : String → Option String) (fs : FS)
    (h1 : pyTruthy (env "GOOGLE_API_KEY") = none)
    (h2 : pyTruthy (env "GEMINI_API_KEY") = none)
    (hs : fs.skillEnv = FileView.absent ∨ fs.skillEnv = FileView.unreadable) :
    fileLookup FileView.absent = none
    ∧ fileLookup FileView.unreadable = none
    ∧ (find_api_key env fs).result = fileLookup fs.projectEnv
    ∧ ("skill .env" ∈ (find_api_key env fs).warnings ↔ fs.skillEnv = FileView.unreadable)
    ∧ (fs.projectEnv = FileView.unreadable →
        (find_api_key env fs).result = none
        ∧ "project .env" ∈ (find_api_key env fs).warnings) := by
  obtain ⟨sv, pv⟩ := fs
  have hs' : sv = FileView.absent ∨ sv = FileView.unreadable := hs
  refine ⟨rfl, rfl, ?_, ?_, ?_⟩
  · rw [find_api_key_firstSome]
    have hsk : fileLookup sv = none := by
      rcases hs' with h | h <;> rw [h] <;> rfl
    simp only [keySources, h1, h2, hsk]
    cases fileLookup pv <;> rfl
  · unfold find_api_key
    rw [h1, h2]
    rcases hs' with h | h <;> subst h
    · cases pv with
      | absent => simp [FileView.exists, load_env_file, pyTruthy_none]
      | unreadable => simp [FileView.exists, load_env_file, pyTruthy_none]
      | content lines =>
          cases hpt : pyTruthy (scanLines lines) <;>
            simp [FileView.exists, load_env_file, pyTruthy_none, hpt]
    · cases pv with
      | absent => simp [FileView.exists, load_env_file, pyTruthy_none]
      | unreadable => simp [FileView.exists, load_env_file, pyTruthy_none]
      | content lines =>
          cases hpt : pyTruthy (scanLines lines) <;>
            simp [FileView.exists, load_env_file, pyTruthy_none, hpt]
  · intro hp
    have hp' : pv = FileView.unreadable := hp
    subst hp'
    unfold find_api_key
    rw [h1, h2]
    rcases hs' with h | h <;> subst h <;>
      simp [FileView.exists, load_env_file, pyTruthy_none]

/-- Witness for the file-error claim at a concrete environment. -/
theorem file_error_non_fatal_witness :
    fileLookup FileView.absent = none
    ∧ fileLookup FileView.unreadable = none
    ∧ (find_api_key (fun _ => none) ⟨FileView.unreadable, FileView.unreadable⟩).result
        = fileLookup FileView.unreadable
    ∧ ("skill .env" ∈ (find_api_key (fun _ => none)
          ⟨FileView.unreadable, FileView.unreadable⟩).warnings
        ↔ (FileView.unreadable : FileView) = FileView.unreadable)
    ∧ ((FileView.unreadable : FileView) = FileView.unreadable →
        (find_api_key (fun _ => none) ⟨FileView.unreadable, FileView.unreadable⟩).result = none
        ∧ "project .env" ∈ (find_api_key (fun _ => none)
            ⟨FileView.unreadable, FileView.unreadable⟩).warnings) :=
  file_error_non_fatal (fun _ => none) ⟨FileView.unreadable, FileView.unreadable⟩
    rfl rfl (Or.inr rfl)

/-- C10: when the first recognised `NAME=` line of a file extracts to the
empty value, the whole file yields `none` no matter what the later lines
hold, and, with the environment variables empty and the skill file holding
such content, resolution moves on to the project file. -/
theorem first_empty_match_ends_file (l : String)
    (hm : isKeyLine (pyStrip l) = true)
    (he : extractValue (pyStrip l) = "") :
    (∀ post, scanLines (l :: post) = none)
    ∧ (∀ (env : String → Option String) (fs : FS) post,
        pyTruthy (env "GOOGLE_API_KEY") = none →
        pyTruthy (env "GEMINI_API_KEY") = none →
        fs.skillEnv = FileView.content (l :: post) →
        (find_api_key env fs).result = fileLookup fs.projectEnv) := by
  have hscan : ∀ post, scanLines (l :: post) = none := by
    intro post
    simp [scanLines, hm, he]
  refine ⟨hscan, ?_⟩
  intro env fs post h1 h2 hsv
  rw [find_api_key_firstSome]
  have hf : fileLookup fs.skillEnv = none := by
    rw [hsv]
    simp [fileLookup, FileView.exists, load_env_file, hscan, pyTruthy]
  cases h : fileLookup fs.projectEnv <;>
    simp [keySources, h1, h2, hf, firstSome, h]

/-- Witness: `GOOGLE_API_KEY=` with a non-empty `GEMINI_API_KEY=zzz` on
the next line still yields nothing from that file. -/
theorem first_empty_match_ends_file_witness :
    scanLines ["GOOGLE_API_KEY=", "GEMINI_API_KEY=zzz"] = none :=
  (first_empty_match_ends_file "GOOGLE_API_KEY=" (by decide) (by decide)).1
    ["GEMINI_API_KEY=zzz"]

/-- C2 counterexample: on the line `GOOGLE_API_KEY=""abc123""` the code
extracts `abc123` (every enclosing quote character is removed), while a
single-layer strip of the remainder after `=` would leave `"abc123"`;
the two disagree, so the claim as stated is false. -/
theorem quote_strip_counterexample :
    scanLines ["GOOGLE_API_KEY=\"\"abc123\"\""] = some "abc123"
    ∧ stripOneLayer (pyStrip (afterFirstEq (pyStrip "GOOGLE_API_KEY=\"\"abc123\"\"")))
        = "\"abc123\""
    ∧ ("abc123" : String) ≠ "\"abc123\"" := by
  refine ⟨by decide, by decide, by decide⟩

/-- C2 amended: for the first line of a credential file that starts
(after stripping) with a recognised variable name followed by `=`, and is
preceded only by non-matching lines, the extracted value is the remainder
after the first `=` with surrounding whitespace stripped, then all
enclosing double-quote characters stripped, then all enclosing
single-quote characters stripped (Python `str.strip` semantics); the file
yields that value when it is non-empty and nothing otherwise; in
particular `GOOGLE_API_KEY="abc123"` yields `abc123`. -/
theorem quote_strip_amended (pre : List String) (l : String) (ls : List String)
    (hpre : ∀ x ∈ pre, isKeyLine (pyStrip x) = false)
    (hm : isKeyLine (pyStrip l) = true) :
    scanLines (pre ++ l :: ls)
      = (if extractValue (pyStrip l) = "" then none else some (extractValue (pyStrip l)))
    ∧ extractValue (pyStrip "GOOGLE_API_KEY=\"abc123\"") = "abc123"
    ∧ extractValue (pyStrip l)
        = stripChar squote (stripChar dquote (pyStrip (afterFirstEq (pyStrip l)))) := by
  refine ⟨?_, by decide, rfl⟩
  induction pre with
  | nil =>
    simp only [List.nil_append, scanLines, hm, if_true]
    by_cases he : extractValue (pyStrip l) = ""
    · simp [he]
    · simp [he]
  | cons x xs ih =>
    have hx : isKeyLine (pyStrip x) = false := hpre x (List.mem_cons_self x xs)
    have hxs : ∀ y ∈ xs, isKeyLine (pyStrip y) = false :=
      fun y hy => hpre y (List.mem_cons_of_mem x hy)
    simpa [scanLines, hx] using ih hxs

/-- Witness: a comment line followed by `GOOGLE_API_KEY="abc123"` yields
`abc123` with the quotes stripped. -/
theorem quote_strip_amended_witness :
    scanLines (["# a comment"] ++ "GOOGLE_API_KEY=\"abc123\"" :: []) = some "abc123" := by
  rw [(quote_strip_amended ["# a comment"] "GOOGLE_API_KEY=\"abc123\"" []
    (by decide) (by decide)).1]
  decide

/-- C4: a response with zero candidates makes the executor fail with no
file writes, no directory creations, and no printed text. -/
theorem no_candidates_no_effects (prompt api_key model : String) (include_text : Bool)
    (output_path : Option String) (clock : Nat → String) (resp : Response)
    (h : resp.candidates = []) :
    generate_image prompt api_key include_text output_path model clock resp
      = ⟨false, [], [], []⟩ := by
  unfold generate_image
  rw [h]

/-- Witness for the zero-candidate case. -/
theorem no_candidates_no_effects_witness :
    generate_image "a prompt" "a key" true (some "custom.png") "a model"
      (fun _ => "20250101-120000") ⟨[]⟩ = ⟨false, [], [], []⟩ :=
  no_candidates_no_effects "a prompt" "a key" "a model" true (some "custom.png")
    (fun _ => "20250101-120000") ⟨[]⟩ rfl

/-- C9: when credential resolution yields nothing, `main` prints the
remediation guidance naming the four credential sources, exits with code
1, and never invokes the request executor. -/
theorem missing_key_guidance (env : String → Option String) (fs : FS) (args : Args)
    (clock : Nat → String) (resp : Response)
    (h : (find_api_key env fs).result = none) :
    main env fs args clock resp = ⟨1, false, remediationSources⟩
    ∧ remediationSources =
        [ "Environment variable GOOGLE_API_KEY"
        , "Environment variable GEMINI_API_KEY"
        , "Skill directory .env"
        , "Project root .env" ] := by
  refine ⟨?_, rfl⟩
  unfold main
  rw [h]

/-- Witness: empty environment and no files, concrete arguments. -/
theorem missing_key_guidance_witness :
    main (fun _ => none) ⟨FileView.absent, FileView.absent⟩
      ⟨"a prompt", false, none, "a model"⟩ (fun _ => "20250101-120000") ⟨[]⟩
      = ⟨1, false, remediationSources⟩ :=
  (missing_key_guidance (fun _ => none) ⟨FileView.absent, FileView.absent⟩
    ⟨"a prompt", false, none, "a model"⟩ (fun _ => "20250101-120000") ⟨[]⟩ rfl).1

/-- Filtering the payloads out of an enumerated list forgets the indices. -/
theorem enumFrom_filterMap {α β : Type} (f : α → Option β) :
    ∀ (n : Nat) (l : List α),
      (List.enumFrom n l).filterMap (fun ip => f ip.2) = l.filterMap f := by
  intro n l
  induction l generalizing n with
  | nil => rfl
  | cons a as ih =>
    cases h : f a with
    | none => simp [List.enumFrom, List.filterMap_cons, h, ih]
    | some b => simp [List.enumFrom, List.filterMap_cons, h, ih]

/-- Specialisation to the part loop. -/
theorem enum_filterMap_inline (l : List Part) :
    l.enum.filterMap (fun ip => ip.2.inline_data) = l.filterMap Part.inline_data :=
  enumFrom_filterMap Part.inline_data 0 l

/-- Full characterisation of the part loop when an explicit output path is
set: every image payload is written to that path, the clock is never read,
and one parent-creation event is emitted per image. -/
theorem foldl_explicit (p : String) (clock : Nat → String) :
    ∀ (l : List (Nat × Part)) (st : LoopState),
      l.foldl (processPart (some p) clock) st =
        ⟨ st.image_count + (l.filterMap (fun ip => ip.2.inline_data)).length,
          st.clockCalls,
          st.writes ++ (l.filterMap (fun ip => ip.2.inline_data)).map (fun d => (p, d)),
          st.mkdirs ++ (l.filterMap (fun ip => ip.2.inline_data)).map
            (fun _ => DirEvent.parentOf p) ⟩ := by
  intro l
  induction l with
  | nil => intro st; simp
  | cons ip rest ih =>
    intro st
    cases h : ip.2.inline_data with
    | none => simp [processPart, h, List.filterMap_cons, ih]
    | some d =>
      simp [processPart, h, List.filterMap_cons, ih, Nat.add_comm, Nat.add_left_comm,
        Nat.add_assoc]

/-- The image counter counts the truthy image parts, for any output mode. -/
theorem foldl_image_count (op : Option String) (clock : Nat → String) :
    ∀ (l : List (Nat × Part)) (st : LoopState),
      (l.foldl (processPart op clock) st).image_count =
        st.image_count + (l.filterMap (fun ip => ip.2.inline_data)).length := by
  intro l
  induction l with
  | nil => intro st; simp
  | cons ip rest ih =>
    intro st
    cases h : ip.2.inline_data with
    | none => simp [processPart, h, List.filterMap_cons, ih]
    | some d =>
      cases op with
      | some p =>
        simp [processPart, h, List.filterMap_cons, ih, Nat.add_comm, Nat.add_left_comm,
          Nat.add_assoc]
      | none =>
        simp [processPart, h, List.filterMap_cons, ih, Nat.add_comm, Nat.add_left_comm,
          Nat.add_assoc]

/-- One loop step only looks at the enumerate index and the image payload
of its part, never at its text. -/
theorem processPart_inline_eq (op : Option String) (clock : Nat → String) (st : LoopState)
    (ip1 ip2 : Nat × Part) (h1 : ip1.1 = ip2.1) (h2 : ip1.2.inline_data = ip2.2.inline_data) :
    processPart op clock st ip1 = processPart op clock st ip2 := by
  unfold processPart
  rw [h2, h1]

/-- The whole loop only depends on the indexed image payloads. -/
theorem foldl_inline_congr (op : Option String) (clock : Nat → String) :
    ∀ (l1 l2 : List (Nat × Part)) (st : LoopState),
      l1.map (fun ip => (ip.1, ip.2.inline_data)) = l2.map (fun ip => (ip.1, ip.2.inline_data)) →
      l1.foldl (processPart op clock) st = l2.foldl (processPart op clock) st := by
  intro l1
  induction l1 with
  | nil =>
    intro l2 st h
    cases l2 with
    | nil => rfl
    | cons b bs => simp at h
  | cons a as ih =>
    intro l2 st h
    cases l2 with
    | nil => simp at h
    | cons b bs =>
      simp only [List.map_cons, List.cons.injEq, Prod.mk.injEq] at h
      obtain ⟨⟨h1, h2⟩, hrest⟩ := h
      rw [List.foldl_cons, List.foldl_cons, processPart_inline_eq op clock st a b h1 h2]
      exact ih bs _ hrest

/-- Two part lists with the same image payloads enumerate to loop-equal
input lists. -/
theorem enum_inline_eq (parts1 parts2 : List Part)
    (h : parts1.map Part.inline_data = parts2.map Part.inline_data) :
    parts1.enum.map (fun ip => (ip.1, ip.2.inline_data)) =
      parts2.enum.map (fun ip => (ip.1, ip.2.inline_data)) := by
  have e : ∀ (l : List Part),
      l.enum.map (fun ip => (ip.1, ip.2.inline_data)) = (l.map Part.inline_data).enum := by
    intro l
    rw [List.enum_map]
    rfl
  rw [e, e, h]

/-- The characters of a generated default file name. -/
theorem defaultSave_data (t : String) (i : Nat) :
    (defaultSave t i).data
      = assetsDir.data ++ ("/gemini-".data ++ (t.data
          ++ ("-".data ++ ((toString i).data ++ ".png".data)))) := by
  simp [defaultSave, String.data_append, List.append_assoc]

/-- The default names for part indices 0 and 1 differ even for the same
timestamp. -/
theorem defaultSave_zero_ne_one (t : String) : defaultSave t 0 ≠ defaultSave t 1 := by
  intro h
  have h2 := congrArg String.data h
  rw [defaultSave_data, defaultSave_data] at h2
  have h3 := List.append_cancel_left (List.append_cancel_left (List.append_cancel_left h2))
  exact absurd h3 (by decide)

/-- Taking as many trailing characters as the suffix holds recovers the
reversed suffix. -/
theorem take_rev_append (pre suf : List Char) :
    ((pre ++ suf).reverse).take suf.length = suf.reverse := by
  rw [List.reverse_append, ← List.length_reverse suf, List.take_left]

/-- The last six characters of a default name are determined by its part
index, whatever the timestamp. -/
theorem defaultSave_rev_take (t : String) (i : Nat)
    (h : ((toString i).data).length = 1) :
    (defaultSave t i).data.reverse.take 6
      = ("-".data ++ ((toString i).data ++ ".png".data)).reverse := by
  have hd : (defaultSave t i).data
      = (assetsDir.data ++ "/gemini-".data ++ t.data)
        ++ ("-".data ++ ((toString i).data ++ ".png".data)) := by
    rw [defaultSave_data]
    simp [List.append_assoc]
  have hS : ("-".data ++ ((toString i).data ++ ".png".data)).length = 6 := by
    simp only [List.length_append, h]
    rfl
  rw [hd, ← hS, take_rev_append]

/-- A clock whose reading does not change during the run. -/
def constClock : Nat → String := fun _ => "20250101-120000"

/-- A clock that ticks one second between its first and second reading. -/
def tickClock : Nat → String := fun n => if n == 0 then "20250101-120000" else "20250101-120001"

/-- A first candidate holding a text part followed by two image parts. -/
def mixedResp : Response :=
  ⟨[⟨⟨[⟨none, some "an extra text part"⟩, ⟨some [1], none⟩, ⟨some [2], none⟩]⟩⟩]⟩

/-- A candidate holding exactly two image parts. -/
def pairCand : Candidate := ⟨⟨[⟨some [1], none⟩, ⟨some [2], none⟩]⟩⟩

/-- A response whose only candidate is `pairCand`. -/
def pairResp : Response := ⟨[pairCand]⟩

/-- A response holding a single image part and no text. -/
def soloResp : Response := ⟨[⟨⟨[⟨some [7], none⟩]⟩⟩]⟩

/-- The same image payload preceded by a text part. -/
def captionResp : Response := ⟨[⟨⟨[⟨none, some "a caption"⟩, ⟨some [7], none⟩]⟩⟩]⟩

/-- C5: with an explicit output path every image part of the first
candidate is written to that path verbatim, in order; in particular with
two image parts the last write, and hence the final content at that path,
carries the second payload. -/
theorem explicit_output_overwrites (prompt api_key model : String) (include_text : Bool)
    (clock : Nat → String) (p : String) (resp : Response) (c : Candidate)
    (rest : List Candidate) (hres : resp.candidates = c :: rest) :
    ((generate_image prompt api_key include_text (some p) model clock resp).writes
      = (c.content.parts.filterMap Part.inline_data).map (fun d => (p, d)))
    ∧ (∀ w ∈ (generate_image prompt api_key include_text (some p) model clock resp).writes,
        w.1 = p)
    ∧ (∀ d1 d2, c.content.parts.filterMap Part.inline_data = [d1, d2] →
        lastContent
          (generate_image prompt api_key include_text (some p) model clock resp).writes p
          = some d2) := by
  have hw : (generate_image prompt api_key include_text (some p) model clock resp).writes
      = (c.content.parts.filterMap Part.inline_data).map (fun d => (p, d)) := by
    unfold generate_image
    rw [hres]
    dsimp only
    rw [foldl_explicit]
    dsimp only
    rw [List.nil_append, enum_filterMap_inline]
  refine ⟨hw, ?_, ?_⟩
  · intro w hwmem
    rw [hw] at hwmem
    obtain ⟨d, hd, rfl⟩ := List.mem_map.1 hwmem
    rfl
  · intro d1 d2 hdd
    rw [hw, hdd]
    simp [lastContent, List.filter, List.getLast?]

/-- Witness: two image payloads, explicit path `custom.png`; both writes
target it and the final content is the second payload. -/
theorem explicit_output_overwrites_witness :
    ((generate_image "a prompt" "a key" false (some "custom.png") "a model"
        constClock pairResp).writes
      = (pairCand.content.parts.filterMap Part.inline_data).map (fun d => ("custom.png", d)))
    ∧ (∀ w ∈ (generate_image "a prompt" "a key" false (some "custom.png") "a model"
        constClock pairResp).writes, w.1 = "custom.png")
    ∧ (∀ d1 d2, pairCand.content.parts.filterMap Part.inline_data = [d1, d2] →
        lastContent (generate_image "a prompt" "a key" false (some "custom.png") "a model"
          constClock pairResp).writes "custom.png" = some d2) :=
  explicit_output_overwrites "a prompt" "a key" "a model" false constClock "custom.png"
    pairResp pairCand [] rfl

/-- C6 counterexample: a text part ahead of the two image parts shifts
the enumerate indices to 1 and 2, and the per-part clock reads give the
two files different timestamps, so no single timestamp `t` makes the
names `gemini-t-0.png` and `gemini-t-1.png`. -/
theorem default_naming_counterexample :
    ((generate_image "a prompt" "a key" false none "a model" tickClock mixedResp).writes.map
        Prod.fst
      = ["./docs/assets/gemini-20250101-120000-1.png",
         "./docs/assets/gemini-20250101-120001-2.png"])
    ∧ ¬ ∃ t : String,
        (generate_image "a prompt" "a key" false none "a model" tickClock mixedResp).writes.map
            Prod.fst
          = [defaultSave t 0, defaultSave t 1] := by
  have hw : (generate_image "a prompt" "a key" false none "a model" tickClock mixedResp).writes.map
      Prod.fst
      = ["./docs/assets/gemini-20250101-120000-1.png",
         "./docs/assets/gemini-20250101-120001-2.png"] := by decide
  refine ⟨hw, ?_⟩
  rintro ⟨t, ht⟩
  rw [hw] at ht
  injection ht with h1 h2
  injection h2 with h2 h3
  have h4 := congrArg (fun s => s.data.reverse.take 6) h2
  dsimp only at h4
  rw [defaultSave_rev_take t 1 rfl] at h4
  exact absurd h4 (by decide)

/-- C6 amended: when the first candidate consists of exactly two image
parts (no other parts) and no explicit output path is given, and the two
per-part clock reads agree, exactly two writes occur, to the distinct
paths `gemini-<stamp>-0.png` and `gemini-<stamp>-1.png` under the assets
directory, both with the shared stamp. (The code re-reads the clock for
each image part, and the trailing index is the part's position among all
parts of the candidate.) -/
theorem default_two_images_distinct (prompt api_key model : String) (include_text : Bool)
    (clock : Nat → String) (resp : Response) (rest : List Candidate)
    (d1 d2 : Bytes) (t1 t2 : Option String)
    (hres : resp.candidates = ⟨⟨[⟨some d1, t1⟩, ⟨some d2, t2⟩]⟩⟩ :: rest)
    (hclock : clock 1 = clock 0) :
    ((generate_image prompt api_key include_text none model clock resp).writes
      = [(defaultSave (clock 0) 0, d1), (defaultSave (clock 0) 1, d2)])
    ∧ defaultSave (clock 0) 0 ≠ defaultSave (clock 0) 1
    ∧ (∀ w ∈ (generate_image prompt api_key include_text none model clock resp).writes,
        ∃ tail, w.1.data = assetsDir.data ++ tail) := by
  have hw : (generate_image prompt api_key include_text none model clock resp).writes
      = [(defaultSave (clock 0) 0, d1), (defaultSave (clock 0) 1, d2)] := by
    unfold generate_image
    rw [hres]
    dsimp only [List.enum, List.enumFrom, List.foldl]
    simp [processPart, hclock]
  refine ⟨hw, defaultSave_zero_ne_one (clock 0), ?_⟩
  intro w hwmem
  rw [hw] at hwmem
  simp only [List.mem_cons, List.not_mem_nil, or_false] at hwmem
  rcases hwmem with h | h <;> subst h <;> exact ⟨_, defaultSave_data _ _⟩

/-- Witness: two image parts, constant clock, no explicit path. -/
theorem default_two_images_distinct_witness :
    ((generate_image "a prompt" "a key" false none "a model" constClock pairResp).writes
      = [(defaultSave (constClock 0) 0, [1]), (defaultSave (constClock 0) 1, [2])])
    ∧ defaultSave (constClock 0) 0 ≠ defaultSave (constClock 0) 1
    ∧ (∀ w ∈ (generate_image "a prompt" "a key" false none "a model" constClock pairResp).writes,
        ∃ tail, w.1.data = assetsDir.data ++ tail) :=
  default_two_images_distinct "a prompt" "a key" "a model" false constClock pairResp []
    [1] [2] none none rfl rfl

/-- C7: once a key is resolved, the executor succeeds exactly when the
image counter (the number of truthy image parts of the first candidate)
is positive, the process exit code is 0 exactly on success and 1
otherwise, and the generated-text printing depends only on the
include-text flag and the text parts, so text printed before a zero-image
failure stays printed. -/
theorem success_iff_image_count (env : String → Option String) (fs : FS) (args : Args)
    (clock : Nat → String) (resp : Response) (k : String)
    (hk : (find_api_key env fs).result = some k) :
    ((generate_image args.prompt k args.include_text args.output args.model clock
        resp).success = true
      ↔ 0 < (imageData resp).length)
    ∧ ((main env fs args clock resp).exitCode =
        if (generate_image args.prompt k args.include_text args.output args.model clock
            resp).success
        then 0 else 1)
    ∧ ((main env fs args clock resp).exitCode = if 0 < (imageData resp).length then 0 else 1)
    ∧ ((generate_image args.prompt k args.include_text args.output args.model clock
        resp).printedText
      = if args.include_text then textData resp else []) := by
  have hmain : main env fs args clock resp
      = ⟨if (generate_image args.prompt k args.include_text args.output args.model clock
            resp).success
         then 0 else 1, true, []⟩ := by
    unfold main
    rw [hk]
  have hsuc : (generate_image args.prompt k args.include_text args.output args.model clock
      resp).success = true ↔ 0 < (imageData resp).length := by
    cases hres : resp.candidates with
    | nil =>
      unfold generate_image imageData
      rw [hres]
      simp
    | cons c rest =>
      unfold generate_image imageData
      rw [hres]
      dsimp only
      rw [foldl_image_count, enum_filterMap_inline]
      simp [Nat.pos_iff_ne_zero]
  have hpr : (generate_image args.prompt k args.include_text args.output args.model clock
      resp).printedText = if args.include_text then textData resp else [] := by
    cases hres : resp.candidates with
    | nil =>
      unfold generate_image textData
      rw [hres]
      cases args.include_text <;> simp
    | cons c rest =>
      unfold generate_image textData
      rw [hres]
  refine ⟨hsuc, ?_, ?_, hpr⟩
  · rw [hmain]
  · rw [hmain]
    by_cases hcase : 0 < (imageData resp).length
    · rw [hsuc.2 hcase]
      simp [hcase]
    · have hfalse : (generate_image args.prompt k args.include_text args.output args.model
          clock resp).success = false := by
        cases hs2 : (generate_image args.prompt k args.include_text args.output args.model
            clock resp).success
        · rfl
        · exact absurd (hsuc.1 hs2) hcase
      rw [hfalse]
      simp [hcase]

/-- Witness: key present, one image and one text part, include-text set. -/
theorem success_iff_image_count_witness :
    ((generate_image "a prompt" "the-key" true none "a model" constClock captionResp).success
        = true
      ↔ 0 < (imageData captionResp).length)
    ∧ ((main (fun _ => some "the-key") ⟨FileView.absent, FileView.absent⟩
        ⟨"a prompt", true, none, "a model"⟩ constClock captionResp).exitCode =
        if (generate_image "a prompt" "the-key" true none "a model" constClock
            captionResp).success
        then 0 else 1)
    ∧ ((main (fun _ => some "the-key") ⟨FileView.absent, FileView.absent⟩
        ⟨"a prompt", true, none, "a model"⟩ constClock captionResp).exitCode
        = if 0 < (imageData captionResp).length then 0 else 1)
    ∧ ((generate_image "a prompt" "the-key" true none "a model" constClock
        captionResp).printedText
        = if true then textData captionResp else []) :=
  success_iff_image_count (fun _ => some "the-key") ⟨FileView.absent, FileView.absent⟩
    ⟨"a prompt", true, none, "a model"⟩ constClock captionResp "the-key" rfl

/-- C8 counterexample: with include-text unset, two responses carrying
the same single image payload, one with an extra leading text part,
produce different writes (the enumerate index shifts the default file
name), even though neither run prints any text. -/
theorem text_parts_change_filenames :
    ((generate_image "a prompt" "a key" false none "a model" constClock soloResp).writes
      ≠ (generate_image "a prompt" "a key" false none "a model" constClock captionResp).writes)
    ∧ (generate_image "a prompt" "a key" false none "a model" constClock soloResp).printedText
        = []
    ∧ (generate_image "a prompt" "a key" false none "a model" constClock
        captionResp).printedText = [] := by
  refine ⟨by decide, by decide, by decide⟩

/-- C8 amended: with include-text unset, no text is printed, and two
responses whose candidates agree position-by-position on their image
payloads (text fields arbitrary, the part structure preserved) produce
identical writes, identical directory creations, and the same result. -/
theorem text_payload_independence (prompt1 api_key1 model1 prompt2 api_key2 model2 : String)
    (op : Option String) (clock : Nat → String) (respA respB : Response)
    (h : respA.candidates.map (fun c => c.content.parts.map Part.inline_data)
       = respB.candidates.map (fun c => c.content.parts.map Part.inline_data)) :
    ((generate_image prompt1 api_key1 false op model1 clock respA).writes
      = (generate_image prompt2 api_key2 false op model2 clock respB).writes)
    ∧ ((generate_image prompt1 api_key1 false op model1 clock respA).mkdirs
      = (generate_image prompt2 api_key2 false op model2 clock respB).mkdirs)
    ∧ ((generate_image prompt1 api_key1 false op model1 clock respA).success
      = (generate_image prompt2 api_key2 false op model2 clock respB).success)
    ∧ (generate_image prompt1 api_key1 false op model1 clock respA).printedText = []
    ∧ (generate_image prompt2 api_key2 false op model2 clock respB).printedText = [] := by
  cases hA : respA.candidates with
  | nil =>
    cases hB : respB.candidates with
    | nil =>
      unfold generate_image
      rw [hA, hB]
      exact ⟨rfl, rfl, rfl, rfl, rfl⟩
    | cons b bs =>
      rw [hA, hB] at h
      simp at h
  | cons a as =>
    cases hB : respB.candidates with
    | nil =>
      rw [hA, hB] at h
      simp at h
    | cons b bs =>
      rw [hA, hB] at h
      simp only [List.map_cons, List.cons.injEq] at h
      obtain ⟨hab, hrest⟩ := h
      have hfold : a.content.parts.enum.foldl (processPart op clock) ⟨0, 0, [], []⟩
          = b.content.parts.enum.foldl (processPart op clock) ⟨0, 0, [], []⟩ :=
        foldl_inline_congr op clock _ _ _ (enum_inline_eq _ _ hab)
      unfold generate_image
      rw [hA, hB]
      dsimp only
      rw [hfold]
      exact ⟨rfl, rfl, rfl, rfl, rfl⟩

/-- The image payload of `soloResp` with a different text field. -/
def soloTextResp : Response := ⟨[⟨⟨[⟨some [7], some "alternative words"⟩]⟩⟩]⟩

/-- Witness: same image payload, different text field, identical effects. -/
theorem text_payload_independence_witness :
    ((generate_image "a prompt" "a key" false none "a model" constClock soloResp).writes
      = (generate_image "a prompt" "a key" false none "a model" constClock soloTextResp).writes)
    ∧ ((generate_image "a prompt" "a key" false none "a model" constClock soloResp).mkdirs
      = (generate_image "a prompt" "a key" false none "a model" constClock
          soloTextResp).mkdirs)
    ∧ ((generate_image "a prompt" "a key" false none "a model" constClock soloResp).success
      = (generate_image "a prompt" "a key" false none "a model" constClock
          soloTextResp).success)
    ∧ (generate_image "a prompt" "a key" false none "a model" constClock soloResp).printedText
        = []
    ∧ (generate_image "a prompt" "a key" false none "a model" constClock
        soloTextResp).printedText = [] :=
  text_payload_independence "a prompt" "a key" "a model" "a prompt" "a key" "a model"
    none constClock soloResp soloTextResp rfl

end Goclaw
